import Mathlib

/-!
# Controller configuration of flytepropeller (`pkg/controller/config/config.go`)

A shallow embedding of the configuration schema, of the default value table
`defaultConfig`, and of the typed accessor `GetConfig` and the extension point
`MustRegisterSubSection`.

Conventions of the embedding:

* Go `int` and `int64` are `Int`; every value the file writes is a small literal.
* `time.Duration` is an `Int` number of nanoseconds, `config.Duration` wraps it.
* `float32` occurs once (`KubeClientConfig.QPS`) with the integral literal `5`;
  it is kept as an exact `Int`.
* A field that the composite literal `defaultConfig` does not mention holds the
  zero value of its Go type (`0`, `""`, `false`, a zero struct).
* A Go panic is the `error` case of `Except Fault`.
* The field name `Type` is written `Type_`, since `Type` is reserved.
-/

set_option linter.dupNamespace false

namespace FlytePropeller

/-! ## Durations (`time` and `flytestdlib/config`) -/

/-- Nanoseconds, the unit of `time.Duration`. -/
def time.Nanosecond : Int := 1

/-- Value of `time.Microsecond`. -/
def time.Microsecond : Int := 1000 * time.Nanosecond

/-- Value of `time.Millisecond`. -/
def time.Millisecond : Int := 1000 * time.Microsecond

/-- Value of `time.Second`. -/
def time.Second : Int := 1000 * time.Millisecond

/-- Value of `time.Minute`. -/
def time.Minute : Int := 60 * time.Second

/-- Value of `time.Hour`. -/
def time.Hour : Int := 60 * time.Minute

/-- The wrapper `config.Duration`, a struct around one `time.Duration`. -/
structure Duration where
  Duration : Int := 0
  deriving DecidableEq, Repr

/-- The wrapper `config.Port`, a struct around one `int`. -/
structure Port where
  Port : Int := 0
  deriving DecidableEq, Repr

/-- The pair `types.NamespacedName` of apimachinery. -/
structure NamespacedName where
  Namespace : String := ""
  Name : String := ""
  deriving DecidableEq, Repr

/-! ## The configuration structs -/

/-- The string alias `CompositeQueueType`. -/
abbrev CompositeQueueType := String

/-- Constant `CompositeQueueSimple`. -/
def CompositeQueueSimple : CompositeQueueType := "simple"

/-- Constant `CompositeQueueBatch`. -/
def CompositeQueueBatch : CompositeQueueType := "batch"

/-- The string alias `WorkqueueType`. -/
abbrev WorkqueueType := String

/-- Constant `WorkqueueTypeDefault`. -/
def WorkqueueTypeDefault : WorkqueueType := "default"

/-- Constant `WorkqueueTypeBucketRateLimiter`. -/
def WorkqueueTypeBucketRateLimiter : WorkqueueType := "bucket"

/-- Constant `WorkqueueTypeExponentialFailureRateLimiter`. -/
def WorkqueueTypeExponentialFailureRateLimiter : WorkqueueType := "expfailure"

/-- Constant `WorkqueueTypeMaxOfRateLimiter`. -/
def WorkqueueTypeMaxOfRateLimiter : WorkqueueType := "maxof"

/-- Struct `KubeClientConfig`. -/
structure KubeClientConfig where
  QPS : Int := 0
  Burst : Int := 0
  Timeout : Duration := {}
  deriving DecidableEq, Repr

/-- Struct `WorkqueueConfig`. -/
structure WorkqueueConfig where
  Type_ : WorkqueueType := ""
  BaseDelay : Duration := {}
  MaxDelay : Duration := {}
  Rate : Int := 0
  Capacity : Int := 0
  deriving DecidableEq, Repr

/-- Struct `CompositeQueueConfig`. -/
structure CompositeQueueConfig where
  Type_ : CompositeQueueType := ""
  Queue : WorkqueueConfig := {}
  Sub : WorkqueueConfig := {}
  BatchingInterval : Duration := {}
  BatchSize : Int := 0
  deriving DecidableEq, Repr

/-- Struct `DefaultDeadlines`. -/
structure DefaultDeadlines where
  DefaultNodeExecutionDeadline : Duration := {}
  DefaultNodeActiveDeadline : Duration := {}
  DefaultWorkflowActiveDeadline : Duration := {}
  deriving DecidableEq, Repr

/-- Struct `NodeConfig`. -/
structure NodeConfig where
  DefaultDeadlines : DefaultDeadlines := {}
  MaxNodeRetriesOnSystemFailures : Int := 0
  InterruptibleFailureThreshold : Int := 0
  deriving DecidableEq, Repr

/-- Struct `LeaderElectionConfig`. -/
structure LeaderElectionConfig where
  Enabled : Bool := false
  LockConfigMap : NamespacedName := {}
  LeaseDuration : Duration := {}
  RenewDeadline : Duration := {}
  RetryPeriod : Duration := {}
  deriving DecidableEq, Repr

/-- Struct `Config`, the root of the configuration tree. -/
structure Config where
  KubeConfigPath : String := ""
  MasterURL : String := ""
  Workers : Int := 0
  WorkflowReEval : Duration := {}
  DownstreamEval : Duration := {}
  LimitNamespace : String := ""
  ProfilerPort : Port := {}
  MetadataPrefix : String := ""
  Queue : CompositeQueueConfig := {}
  MetricsPrefix : String := ""
  EnableAdminLauncher : Bool := false
  MaxWorkflowRetries : Int := 0
  MaxTTLInHours : Int := 0
  GCInterval : Duration := {}
  LeaderElection : LeaderElectionConfig := {}
  PublishK8sEvents : Bool := false
  MaxDatasetSizeBytes : Int := 0
  KubeConfig : KubeClientConfig := {}
  NodeConfig : NodeConfig := {}
  deriving DecidableEq, Repr

/-! ## The default value table -/

/-- Constant `configSectionKey`. -/
def configSectionKey : String := "propeller"

/-- The composite literal `defaultConfig` (the pointee of the `*Config`). -/
def defaultConfig : Config :=
  { MaxWorkflowRetries := 5
    MaxDatasetSizeBytes := 10 * 1024 * 1024
    Queue :=
      { Type_ := CompositeQueueSimple
        Queue :=
          { Type_ := WorkqueueTypeDefault
            BaseDelay := { Duration := time.Second * 10 }
            MaxDelay := { Duration := time.Second * 10 }
            Rate := 10
            Capacity := 100 } }
    KubeConfig :=
      { QPS := 5
        Burst := 10
        Timeout := { Duration := 0 } }
    LeaderElection :=
      { Enabled := false
        LeaseDuration := { Duration := time.Second * 15 }
        RenewDeadline := { Duration := time.Second * 10 }
        RetryPeriod := { Duration := time.Second * 2 } }
    NodeConfig :=
      { DefaultDeadlines :=
          { DefaultNodeExecutionDeadline := { Duration := time.Hour * 48 }
            DefaultNodeActiveDeadline := { Duration := time.Hour * 48 }
            DefaultWorkflowActiveDeadline := { Duration := time.Hour * 72 } }
        MaxNodeRetriesOnSystemFailures := 3
        InterruptibleFailureThreshold := 1 } }

/-! ## Field annotations (struct tags)

Each field of a configuration struct carries a `json` tag (the external key,
optionally followed by `,omitempty`) and, for most fields, a `pflag` tag of the
form `default,usage`. The tables below transcribe the tags of every struct in
declaration order. -/

/-- Names of the struct types declared in the file. -/
inductive StructName where
  | Config
  | KubeClientConfig
  | CompositeQueueConfig
  | WorkqueueConfig
  | NodeConfig
  | DefaultDeadlines
  | LeaderElectionConfig
  deriving DecidableEq, Repr

/-- Go type of a field, as far as the schema distinguishes it. -/
inductive GoType where
  | string
  | int
  | int64
  | float32
  | bool
  | duration
  | port
  | namespacedName
  | struct (s : StructName)
  deriving DecidableEq, Repr

/-- One field declaration: Go name, Go type, `json` tag and `pflag` tag
(`none` when the field has no `pflag` tag). -/
structure FieldDecl where
  name : String
  type : GoType
  json : String
  pflag : Option String
  deriving DecidableEq, Repr

/-- Field declarations of `Config`. -/
def Config.fields : List FieldDecl :=
  [ ⟨"KubeConfigPath", .string, "kube-config", some ",Path to kubernetes client config file."⟩,
    ⟨"MasterURL", .string, "master", none⟩,
    ⟨"Workers", .int, "workers", some "2,Number of threads to process workflows"⟩,
    ⟨"WorkflowReEval", .duration, "workflow-reeval-duration",
      some "\"30s\",Frequency of re-evaluating workflows"⟩,
    ⟨"DownstreamEval", .duration, "downstream-eval-duration",
      some "\"60s\",Frequency of re-evaluating downstream tasks"⟩,
    ⟨"LimitNamespace", .string, "limit-namespace",
      some "\"all\",Namespaces to watch for this propeller"⟩,
    ⟨"ProfilerPort", .port, "prof-port", some "\"10254\",Profiler port"⟩,
    ⟨"MetadataPrefix", .string, "metadata-prefix,omitempty",
      some ",MetadataPrefix should be used if all the metadata for Flyte executions should be stored under a specific prefix in CloudStorage. If not specified, the data will be stored in the base container directly."⟩,
    ⟨"Queue", .struct .CompositeQueueConfig, "queue,omitempty",
      some ",Workflow workqueue configuration, affects the way the work is consumed from the queue."⟩,
    ⟨"MetricsPrefix", .string, "metrics-prefix",
      some "\"flyte:\",An optional prefix for all published metrics."⟩,
    ⟨"EnableAdminLauncher", .bool, "enable-admin-launcher",
      some "false, Enable remote Workflow launcher to Admin"⟩,
    ⟨"MaxWorkflowRetries", .int, "max-workflow-retries",
      some "50,Maximum number of retries per workflow"⟩,
    ⟨"MaxTTLInHours", .int, "max-ttl-hours",
      some "23,Maximum number of hours a completed workflow should be retained. Number between 1-23 hours"⟩,
    ⟨"GCInterval", .duration, "gc-interval", some "\"30m\",Run periodic GC every 30 minutes"⟩,
    ⟨"LeaderElection", .struct .LeaderElectionConfig, "leader-election,omitempty",
      some ",Config for leader election."⟩,
    ⟨"PublishK8sEvents", .bool, "publish-k8s-events",
      some ",Enable events publishing to K8s events API."⟩,
    ⟨"MaxDatasetSizeBytes", .int64, "max-output-size-bytes",
      some ",Maximum size of outputs per task"⟩,
    ⟨"KubeConfig", .struct .KubeClientConfig, "kube-client-config",
      some ",Configuration to control the Kubernetes client"⟩,
    ⟨"NodeConfig", .struct .NodeConfig, "node-config,omitempty",
      some ",config for a workflow node"⟩ ]

/-- Field declarations of `KubeClientConfig`. -/
def KubeClientConfig.fields : List FieldDecl :=
  [ ⟨"QPS", .float32, "qps",
      some "-,Max QPS to the master for requests to KubeAPI. 0 defaults to 5."⟩,
    ⟨"Burst", .int, "burst", some ",Max burst rate for throttle. 0 defaults to 10"⟩,
    ⟨"Timeout", .duration, "timeout",
      some ",Max duration allowed for every request to KubeAPI before giving up. 0 implies no timeout."⟩ ]

/-- Field declarations of `CompositeQueueConfig`. -/
def CompositeQueueConfig.fields : List FieldDecl :=
  [ ⟨"Type", .string, "type", some ",Type of composite queue to use for the WorkQueue"⟩,
    ⟨"Queue", .struct .WorkqueueConfig, "queue,omitempty",
      some ",Workflow workqueue configuration, affects the way the work is consumed from the queue."⟩,
    ⟨"Sub", .struct .WorkqueueConfig, "sub-queue,omitempty",
      some ",SubQueue configuration, affects the way the nodes cause the top-level Work to be re-evaluated."⟩,
    ⟨"BatchingInterval", .duration, "batching-interval",
      some ",Duration for which downstream updates are buffered"⟩,
    ⟨"BatchSize", .int, "batch-size",
      some "-1,Number of downstream triggered top-level objects to re-enqueue every duration. -1 indicates all available."⟩ ]

/-- Field declarations of `WorkqueueConfig`. -/
def WorkqueueConfig.fields : List FieldDecl :=
  [ ⟨"Type", .string, "type", some ",Type of RateLimiter to use for the WorkQueue"⟩,
    ⟨"BaseDelay", .duration, "base-delay", some ",base backoff delay for failure"⟩,
    ⟨"MaxDelay", .duration, "max-delay", some ",Max backoff delay for failure"⟩,
    ⟨"Rate", .int64, "rate", some ",Bucket Refill rate per second"⟩,
    ⟨"Capacity", .int, "capacity", some ",Bucket capacity as number of items"⟩ ]

/-- Field declarations of `NodeConfig`. -/
def NodeConfig.fields : List FieldDecl :=
  [ ⟨"DefaultDeadlines", .struct .DefaultDeadlines, "default-deadlines,omitempty",
      some ",Default value for timeouts"⟩,
    ⟨"MaxNodeRetriesOnSystemFailures", .int64, "max-node-retries-system-failures",
      some "2,Maximum number of retries per node for node failure due to infra issues"⟩,
    ⟨"InterruptibleFailureThreshold", .int64, "interruptible-failure-threshold",
      some "1,number of failures for a node to be still considered interruptible'"⟩ ]

/-- Field declarations of `DefaultDeadlines`. -/
def DefaultDeadlines.fields : List FieldDecl :=
  [ ⟨"DefaultNodeExecutionDeadline", .duration, "node-execution-deadline",
      some ",Default value of node execution timeout"⟩,
    ⟨"DefaultNodeActiveDeadline", .duration, "node-active-deadline",
      some ",Default value of node timeout"⟩,
    ⟨"DefaultWorkflowActiveDeadline", .duration, "workflow-active-deadline",
      some ",Default value of workflow timeout"⟩ ]

/-- Field declarations of `LeaderElectionConfig`. -/
def LeaderElectionConfig.fields : List FieldDecl :=
  [ ⟨"Enabled", .bool, "enabled", some ",Enables/Disables leader election."⟩,
    ⟨"LockConfigMap", .namespacedName, "lock-config-map",
      some ",ConfigMap namespace/name to use for resource lock."⟩,
    ⟨"LeaseDuration", .duration, "lease-duration",
      some ",Duration that non-leader candidates will wait to force acquire leadership. This is measured against time of last observed ack."⟩,
    ⟨"RenewDeadline", .duration, "renew-deadline",
      some ",Duration that the acting master will retry refreshing leadership before giving up."⟩,
    ⟨"RetryPeriod", .duration, "retry-period",
      some ",Duration the LeaderElector clients should wait between tries of actions."⟩ ]

/-- The field declarations of each struct. -/
def StructName.fields : StructName → List FieldDecl
  | .Config => Config.fields
  | .KubeClientConfig => KubeClientConfig.fields
  | .CompositeQueueConfig => CompositeQueueConfig.fields
  | .WorkqueueConfig => WorkqueueConfig.fields
  | .NodeConfig => NodeConfig.fields
  | .DefaultDeadlines => DefaultDeadlines.fields
  | .LeaderElectionConfig => LeaderElectionConfig.fields

/-- All struct types of the file. -/
def StructName.all : List StructName :=
  [.Config, .KubeClientConfig, .CompositeQueueConfig, .WorkqueueConfig, .NodeConfig,
   .DefaultDeadlines, .LeaderElectionConfig]

/-- The part of a tag before its first comma: the key name of a `json` tag, the
default value of a `pflag` tag. -/
def tagHead (tag : String) : String :=
  String.mk (tag.toList.takeWhile (fun c => c != ','))

/-- External key name of a field: the name part of its `json` tag. -/
def FieldDecl.jsonKey (f : FieldDecl) : String := tagHead f.json

/-- Default documented by the `pflag` tag of a field: `none` when the field has
no `pflag` tag or the tag leaves the default part empty. -/
def FieldDecl.pflagDefault (f : FieldDecl) : Option String :=
  match f.pflag with
  | none => none
  | some t => if tagHead t = "" then none else some (tagHead t)

/-- External key names of a struct, in declaration order. -/
def StructName.jsonKeys (s : StructName) : List String :=
  s.fields.map FieldDecl.jsonKey

/-- Documented default of the field called `field` in struct `s`. -/
def StructName.documentedDefault (s : StructName) (field : String) : Option String :=
  match s.fields.find? (fun f => f.name == field) with
  | none => none
  | some f => f.pflagDefault

/-- External key paths below a struct: a leaf field contributes its key, a field
of struct type contributes its key, a dot, and each path below that struct. The
struct types nest three levels deep; `depth` bounds the descent. -/
def StructName.keyPaths : Nat → StructName → List String
  | 0, _ => []
  | depth + 1, s =>
    s.fields.flatMap fun f =>
      match f.type with
      | .struct t => (StructName.keyPaths depth t).map fun p => f.jsonKey ++ "." ++ p
      | _ => [f.jsonKey]

/-! ## Views of a configuration value used by the properties -/

/-- The assignment `cfg.MaxWorkflowRetries = n` on a configuration value: the
effect of overriding the key `max-workflow-retries` alone. -/
def Config.setMaxWorkflowRetries (c : Config) (n : Int) : Config :=
  { c with MaxWorkflowRetries := n }

/-- Every field of numeric or duration type in the configuration tree, at every
nesting level, under its Go field path, with the value it holds (durations in
nanoseconds). -/
def Config.numericFields (c : Config) : List (String × Int) :=
  [ ("Workers", c.Workers),
    ("WorkflowReEval", c.WorkflowReEval.Duration),
    ("DownstreamEval", c.DownstreamEval.Duration),
    ("ProfilerPort", c.ProfilerPort.Port),
    ("Queue.Queue.BaseDelay", c.Queue.Queue.BaseDelay.Duration),
    ("Queue.Queue.MaxDelay", c.Queue.Queue.MaxDelay.Duration),
    ("Queue.Queue.Rate", c.Queue.Queue.Rate),
    ("Queue.Queue.Capacity", c.Queue.Queue.Capacity),
    ("Queue.Sub.BaseDelay", c.Queue.Sub.BaseDelay.Duration),
    ("Queue.Sub.MaxDelay", c.Queue.Sub.MaxDelay.Duration),
    ("Queue.Sub.Rate", c.Queue.Sub.Rate),
    ("Queue.Sub.Capacity", c.Queue.Sub.Capacity),
    ("Queue.BatchingInterval", c.Queue.BatchingInterval.Duration),
    ("Queue.BatchSize", c.Queue.BatchSize),
    ("MaxWorkflowRetries", c.MaxWorkflowRetries),
    ("MaxTTLInHours", c.MaxTTLInHours),
    ("GCInterval", c.GCInterval.Duration),
    ("LeaderElection.LeaseDuration", c.LeaderElection.LeaseDuration.Duration),
    ("LeaderElection.RenewDeadline", c.LeaderElection.RenewDeadline.Duration),
    ("LeaderElection.RetryPeriod", c.LeaderElection.RetryPeriod.Duration),
    ("MaxDatasetSizeBytes", c.MaxDatasetSizeBytes),
    ("KubeConfig.QPS", c.KubeConfig.QPS),
    ("KubeConfig.Burst", c.KubeConfig.Burst),
    ("KubeConfig.Timeout", c.KubeConfig.Timeout.Duration),
    ("NodeConfig.DefaultDeadlines.DefaultNodeExecutionDeadline",
      c.NodeConfig.DefaultDeadlines.DefaultNodeExecutionDeadline.Duration),
    ("NodeConfig.DefaultDeadlines.DefaultNodeActiveDeadline",
      c.NodeConfig.DefaultDeadlines.DefaultNodeActiveDeadline.Duration),
    ("NodeConfig.DefaultDeadlines.DefaultWorkflowActiveDeadline",
      c.NodeConfig.DefaultDeadlines.DefaultWorkflowActiveDeadline.Duration),
    ("NodeConfig.MaxNodeRetriesOnSystemFailures", c.NodeConfig.MaxNodeRetriesOnSystemFailures),
    ("NodeConfig.InterruptibleFailureThreshold", c.NodeConfig.InterruptibleFailureThreshold) ]

/-- The declared variants of `CompositeQueueType`. -/
def compositeQueueTypes : List CompositeQueueType :=
  [CompositeQueueSimple, CompositeQueueBatch]

/-- The declared variants of `WorkqueueType`. -/
def workqueueTypes : List WorkqueueType :=
  [WorkqueueTypeDefault, WorkqueueTypeBucketRateLimiter,
   WorkqueueTypeExponentialFailureRateLimiter, WorkqueueTypeMaxOfRateLimiter]

/-! ## Registration and retrieval -/

/-- A value of the interface type `config.Config` (an empty interface), by its
dynamic type: the nil interface, a `*Config` (`none` is the nil pointer, `some c`
a pointer to `c`), or a value of any other dynamic type, told apart by `id`. -/
inductive Any where
  | nil
  | config (p : Option Config)
  | other (id : Nat)
  deriving DecidableEq, Repr

/-- The faults (Go panics) of registration and retrieval. -/
inductive Fault where
  | typeAssertion
  | duplicateSection (key : String)
  deriving DecidableEq, Repr

/-- Modelled from the spec: the section type `config.Section` of the external
registry (package `flytestdlib/config`), whose code is not among the sources. A
section owns the value it was registered with and the sections nested under
it, each under its section key. -/
inductive Section where
  | mk (config : Any) (sections : List (String × Section))

/-- Modelled from the spec: `Section.GetConfig` of the external registry, which
is missing from the sources; `handle.GetConfig() -> value` returns the value the
section holds. -/
def Section.GetConfig : Section → Any
  | .mk c _ => c

/-- The sections nested under a section, oldest first. -/
def Section.sections : Section → List (String × Section)
  | .mk _ subs => subs

/-- The section nested under `key`, when there is one. -/
def Section.lookup (s : Section) (key : String) : Option Section :=
  s.sections.lookup key

/-- Modelled from the spec: `Section.MustRegisterSection` of the external
registry, which is missing from the sources. Registering a key that the parent
already holds is the duplicate-section fault; otherwise a new section holding
`cfg` is nested under `key`. The result is the handle of the new section and
the parent after the registration. -/
def Section.MustRegisterSection (s : Section) (key : String) (cfg : Any) :
    Except Fault (Section × Section) :=
  match s.lookup key with
  | some _ => .error (.duplicateSection key)
  | none =>
    let sub := Section.mk cfg []
    .ok (sub, .mk s.GetConfig (s.sections ++ [(key, sub)]))

/-- Modelled from the spec: the package-level `config.MustRegisterSection` of
the external registry, which is missing from the sources; it registers under
the root section of the process-wide registry, here the argument `rootSection`. -/
def config.MustRegisterSection (rootSection : Section) (key : String) (cfg : Any) :
    Except Fault (Section × Section) :=
  rootSection.MustRegisterSection key cfg

/-- The package variable `configSection`: the handle obtained by registering
`defaultConfig` under `configSectionKey`, together with the registry after the
registration. -/
def configSection (rootSection : Section) : Except Fault (Section × Section) :=
  config.MustRegisterSection rootSection configSectionKey (.config (some defaultConfig))

/-- Function `GetConfig`: the type assertion `configSection.GetConfig().(*Config)`.
The assertion yields the pointer when the dynamic type is `*Config` and panics
for every other value, the nil interface included. -/
def GetConfig (configSection : Section) : Except Fault (Option Config) :=
  match configSection.GetConfig with
  | .config p => .ok p
  | _ => .error .typeAssertion

/-- Function `MustRegisterSubSection` (its parameter `section` is written
`section_`). -/
def MustRegisterSubSection (configSection : Section) (subSectionKey : String) (section_ : Any) :
    Except Fault (Section × Section) :=
  configSection.MustRegisterSection subSectionKey section_

/-! ## Properties of the default value table -/

/-- Claim C1, evaluated on the code: of the thirteen defaults documented in the
`pflag` tags, `defaultConfig` holds only two (`EnableAdminLauncher` false and
`InterruptibleFailureThreshold` 1). `Workers` is documented as 2 and is 0,
`MaxWorkflowRetries` as 50 and is 5, `MaxNodeRetriesOnSystemFailures` as 2 and
is 3, `BatchSize` as -1 and is 0, and the other seven documented fields are at
the zero value of their type. -/
theorem defaultConfig_departs_from_pflag_defaults :
    (StructName.Config.documentedDefault "Workers" = some "2" ∧
      defaultConfig.Workers = 0) ∧
    (StructName.Config.documentedDefault "WorkflowReEval" = some "\"30s\"" ∧
      defaultConfig.WorkflowReEval.Duration = 0) ∧
    (StructName.Config.documentedDefault "DownstreamEval" = some "\"60s\"" ∧
      defaultConfig.DownstreamEval.Duration = 0) ∧
    (StructName.Config.documentedDefault "LimitNamespace" = some "\"all\"" ∧
      defaultConfig.LimitNamespace = "") ∧
    (StructName.Config.documentedDefault "ProfilerPort" = some "\"10254\"" ∧
      defaultConfig.ProfilerPort.Port = 0) ∧
    (StructName.Config.documentedDefault "MetricsPrefix" = some "\"flyte:\"" ∧
      defaultConfig.MetricsPrefix = "") ∧
    (StructName.Config.documentedDefault "EnableAdminLauncher" = some "false" ∧
      defaultConfig.EnableAdminLauncher = false) ∧
    (StructName.Config.documentedDefault "MaxWorkflowRetries" = some "50" ∧
      defaultConfig.MaxWorkflowRetries = 5) ∧
    (StructName.Config.documentedDefault "MaxTTLInHours" = some "23" ∧
      defaultConfig.MaxTTLInHours = 0) ∧
    (StructName.Config.documentedDefault "GCInterval" = some "\"30m\"" ∧
      defaultConfig.GCInterval.Duration = 0) ∧
    (StructName.CompositeQueueConfig.documentedDefault "BatchSize" = some "-1" ∧
      defaultConfig.Queue.BatchSize = 0) ∧
    (StructName.NodeConfig.documentedDefault "MaxNodeRetriesOnSystemFailures" = some "2" ∧
      defaultConfig.NodeConfig.MaxNodeRetriesOnSystemFailures = 3) ∧
    (StructName.NodeConfig.documentedDefault "InterruptibleFailureThreshold" = some "1" ∧
      defaultConfig.NodeConfig.InterruptibleFailureThreshold = 1) := by
  decide

/-- Claim C2: `defaultConfig` holds `MaxWorkflowRetries = 5`; overriding that
field alone to 7 gives `MaxWorkflowRetries = 7` and leaves
`MaxDatasetSizeBytes = 10*1024*1024 = 10485760`; and for every integer `n`
the override to `n` changes `MaxWorkflowRetries` to `n` and no other field, so
that setting the field back to 5 restores `defaultConfig`. -/
theorem override_MaxWorkflowRetries_leaves_other_fields :
    defaultConfig.MaxWorkflowRetries = 5 ∧
    (defaultConfig.setMaxWorkflowRetries 7).MaxWorkflowRetries = 7 ∧
    (defaultConfig.setMaxWorkflowRetries 7).MaxDatasetSizeBytes = 10 * 1024 * 1024 ∧
    (defaultConfig.setMaxWorkflowRetries 7).MaxDatasetSizeBytes = 10485760 ∧
    ∀ n : Int,
      (defaultConfig.setMaxWorkflowRetries n).MaxWorkflowRetries = n ∧
      (defaultConfig.setMaxWorkflowRetries n).MaxDatasetSizeBytes = 10485760 ∧
      (defaultConfig.setMaxWorkflowRetries n).KubeConfigPath = defaultConfig.KubeConfigPath ∧
      (defaultConfig.setMaxWorkflowRetries n).MasterURL = defaultConfig.MasterURL ∧
      (defaultConfig.setMaxWorkflowRetries n).Workers = defaultConfig.Workers ∧
      (defaultConfig.setMaxWorkflowRetries n).WorkflowReEval = defaultConfig.WorkflowReEval ∧
      (defaultConfig.setMaxWorkflowRetries n).DownstreamEval = defaultConfig.DownstreamEval ∧
      (defaultConfig.setMaxWorkflowRetries n).LimitNamespace = defaultConfig.LimitNamespace ∧
      (defaultConfig.setMaxWorkflowRetries n).ProfilerPort = defaultConfig.ProfilerPort ∧
      (defaultConfig.setMaxWorkflowRetries n).MetadataPrefix = defaultConfig.MetadataPrefix ∧
      (defaultConfig.setMaxWorkflowRetries n).Queue = defaultConfig.Queue ∧
      (defaultConfig.setMaxWorkflowRetries n).MetricsPrefix = defaultConfig.MetricsPrefix ∧
      (defaultConfig.setMaxWorkflowRetries n).EnableAdminLauncher =
        defaultConfig.EnableAdminLauncher ∧
      (defaultConfig.setMaxWorkflowRetries n).MaxTTLInHours = defaultConfig.MaxTTLInHours ∧
      (defaultConfig.setMaxWorkflowRetries n).GCInterval = defaultConfig.GCInterval ∧
      (defaultConfig.setMaxWorkflowRetries n).LeaderElection = defaultConfig.LeaderElection ∧
      (defaultConfig.setMaxWorkflowRetries n).PublishK8sEvents =
        defaultConfig.PublishK8sEvents ∧
      (defaultConfig.setMaxWorkflowRetries n).MaxDatasetSizeBytes =
        defaultConfig.MaxDatasetSizeBytes ∧
      (defaultConfig.setMaxWorkflowRetries n).KubeConfig = defaultConfig.KubeConfig ∧
      (defaultConfig.setMaxWorkflowRetries n).NodeConfig = defaultConfig.NodeConfig ∧
      (defaultConfig.setMaxWorkflowRetries n).setMaxWorkflowRetries 5 = defaultConfig := by
  refine ⟨by decide, by decide, by decide, by decide, fun n => ?_⟩
  refine ⟨rfl, (by decide : defaultConfig.MaxDatasetSizeBytes = 10485760), rfl, rfl, rfl, rfl, rfl, rfl, rfl, rfl, rfl, rfl, rfl, rfl, rfl, rfl,
    rfl, rfl, rfl, rfl, rfl⟩

/-- Claim C3 as stated fails on the code: not every numeric or duration field
of `defaultConfig` other than `KubeConfig.Timeout` is strictly positive (the
rate of the secondary queue `Queue.Sub`, for one, is 0). -/
theorem not_all_numeric_defaults_positive :
    ¬ (∀ p ∈ defaultConfig.numericFields, p.1 ≠ "KubeConfig.Timeout" → 0 < p.2) := by
  decide

/-- Claim C3, amended: every numeric or duration field that the literal
`defaultConfig` assigns is strictly positive, except `KubeConfig.Timeout`,
assigned the sentinel 0 (no timeout); `Queue.BatchingInterval` and the numeric
fields of the secondary queue `Queue.Sub`, which the literal does not assign and
for which no default is documented, are 0. -/
theorem assigned_numeric_defaults_positive :
    0 < defaultConfig.MaxWorkflowRetries ∧
    0 < defaultConfig.MaxDatasetSizeBytes ∧
    0 < defaultConfig.Queue.Queue.BaseDelay.Duration ∧
    0 < defaultConfig.Queue.Queue.MaxDelay.Duration ∧
    0 < defaultConfig.Queue.Queue.Rate ∧
    0 < defaultConfig.Queue.Queue.Capacity ∧
    0 < defaultConfig.KubeConfig.QPS ∧
    0 < defaultConfig.KubeConfig.Burst ∧
    defaultConfig.KubeConfig.Timeout.Duration = 0 ∧
    0 < defaultConfig.LeaderElection.LeaseDuration.Duration ∧
    0 < defaultConfig.LeaderElection.RenewDeadline.Duration ∧
    0 < defaultConfig.LeaderElection.RetryPeriod.Duration ∧
    0 < defaultConfig.NodeConfig.DefaultDeadlines.DefaultNodeExecutionDeadline.Duration ∧
    0 < defaultConfig.NodeConfig.DefaultDeadlines.DefaultNodeActiveDeadline.Duration ∧
    0 < defaultConfig.NodeConfig.DefaultDeadlines.DefaultWorkflowActiveDeadline.Duration ∧
    0 < defaultConfig.NodeConfig.MaxNodeRetriesOnSystemFailures ∧
    0 < defaultConfig.NodeConfig.InterruptibleFailureThreshold ∧
    defaultConfig.Queue.BatchingInterval.Duration = 0 ∧
    defaultConfig.Queue.Sub.BaseDelay.Duration = 0 ∧
    defaultConfig.Queue.Sub.MaxDelay.Duration = 0 ∧
    defaultConfig.Queue.Sub.Rate = 0 ∧
    defaultConfig.Queue.Sub.Capacity = 0 := by
  decide

/-- Claim C4 as stated fails on the code: the three type discriminators of
`defaultConfig` are not all declared variants, because `Queue.Sub.Type` is the
empty string. -/
theorem not_all_default_discriminators_declared :
    ¬ (defaultConfig.Queue.Type_ ∈ compositeQueueTypes ∧
       defaultConfig.Queue.Queue.Type_ ∈ workqueueTypes ∧
       defaultConfig.Queue.Sub.Type_ ∈ workqueueTypes) := by
  decide

/-- Claim C4, amended: in `defaultConfig`, `Queue.Type` is `"simple"`, one of
`simple` and `batch`, and the primary `Queue.Queue.Type` is `"default"`, one of
`default`, `bucket`, `expfailure` and `maxof`; the secondary `Queue.Sub.Type` is
left as the empty string, which is none of the declared variants. -/
theorem default_discriminators :
    defaultConfig.Queue.Type_ = "simple" ∧
    defaultConfig.Queue.Type_ ∈ compositeQueueTypes ∧
    compositeQueueTypes = ["simple", "batch"] ∧
    defaultConfig.Queue.Queue.Type_ = "default" ∧
    defaultConfig.Queue.Queue.Type_ ∈ workqueueTypes ∧
    workqueueTypes = ["default", "bucket", "expfailure", "maxof"] ∧
    defaultConfig.Queue.Sub.Type_ = "" ∧
    defaultConfig.Queue.Sub.Type_ ∉ workqueueTypes := by
  decide

/-- Claim C8: in `defaultConfig` leader election is disabled, and its timings
are a lease duration of 15s, a renew deadline of 10s and a retry period of 2s,
so that `RenewDeadline < LeaseDuration`, `RetryPeriod < RenewDeadline` and
`RetryPeriod < LeaseDuration`. -/
theorem default_leader_election_timings :
    defaultConfig.LeaderElection.Enabled = false ∧
    defaultConfig.LeaderElection.RenewDeadline.Duration <
      defaultConfig.LeaderElection.LeaseDuration.Duration ∧
    defaultConfig.LeaderElection.RetryPeriod.Duration <
      defaultConfig.LeaderElection.RenewDeadline.Duration ∧
    defaultConfig.LeaderElection.RetryPeriod.Duration <
      defaultConfig.LeaderElection.LeaseDuration.Duration ∧
    defaultConfig.LeaderElection.LeaseDuration.Duration = 15 * time.Second ∧
    defaultConfig.LeaderElection.RenewDeadline.Duration = 10 * time.Second ∧
    defaultConfig.LeaderElection.RetryPeriod.Duration = 2 * time.Second ∧
    time.Second = 1000000000 := by
  decide

/-- Claim C9: for both workqueue configurations of `defaultConfig`, the primary
`Queue.Queue` and the secondary `Queue.Sub`, the base backoff delay is at most
the maximum backoff delay; and the primary queue is exactly type `"default"`,
base delay 10s, maximum delay 10s, rate 10 and capacity 100. -/
theorem default_workqueue_delays :
    defaultConfig.Queue.Queue.BaseDelay.Duration ≤ defaultConfig.Queue.Queue.MaxDelay.Duration ∧
    defaultConfig.Queue.Sub.BaseDelay.Duration ≤ defaultConfig.Queue.Sub.MaxDelay.Duration ∧
    defaultConfig.Queue.Queue =
      { Type_ := "default"
        BaseDelay := { Duration := 10 * time.Second }
        MaxDelay := { Duration := 10 * time.Second }
        Rate := 10
        Capacity := 100 } ∧
    time.Second = 1000000000 := by
  decide

/-- Claim C10: within each configuration struct the key names of the `json`
tags are non-empty and pairwise distinct; hence the 41 external key paths of the
configuration tree (complete at nesting depth 3) are pairwise distinct, each
identifying one leaf field. -/
theorem json_keys_nonempty_distinct :
    (∀ s : StructName, s.jsonKeys.Nodup ∧ "" ∉ s.jsonKeys) ∧
    (StructName.keyPaths 3 .Config).Nodup ∧
    (StructName.keyPaths 3 .Config).length = 41 ∧
    StructName.keyPaths 4 .Config = StructName.keyPaths 3 .Config := by
  refine ⟨fun s => ?_, by decide, by decide, by decide⟩
  cases s <;> decide

/-! ## Properties of registration and retrieval -/

/-- Registering a key the parent does not hold succeeds: the handle holds the
registered value and the parent gains the new section at the end. -/
theorem Section.MustRegisterSection_absent (s : Section) (key : String) (cfg : Any)
    (h : s.lookup key = none) :
    s.MustRegisterSection key cfg =
      .ok (.mk cfg [], .mk s.GetConfig (s.sections ++ [(key, .mk cfg [])])) := by
  simp [Section.MustRegisterSection, h]

/-- Registering a key the parent already holds is the duplicate-section fault. -/
theorem Section.MustRegisterSection_present (s : Section) (key : String) (cfg : Any)
    (sub : Section) (h : s.lookup key = some sub) :
    s.MustRegisterSection key cfg = .error (.duplicateSection key) := by
  simp [Section.MustRegisterSection, h]

/-- Lookup in a parent extended by one section at the end. -/
theorem Section.lookup_extended (c : Any) (subs : List (String × Section)) (key : String)
    (sub : Section) (k : String) :
    (Section.mk c (subs ++ [(key, sub)])).lookup k =
      (subs.lookup k).or (if k = key then some sub else none) := by
  simp only [Section.lookup, Section.sections, List.lookup_append]
  by_cases hk : k = key
  · subst hk
    simp
  · have hb : (k == key) = false := by simpa using hk
    simp [List.lookup_cons, hk, hb]

/-- A successful registration determines its results. -/
theorem Section.MustRegisterSection_ok (s : Section) (key : String) (cfg : Any)
    (handle parent : Section) (h : s.MustRegisterSection key cfg = .ok (handle, parent)) :
    s.lookup key = none ∧ handle = .mk cfg [] ∧
      parent = .mk s.GetConfig (s.sections ++ [(key, .mk cfg [])]) := by
  cases hl : s.lookup key with
  | some sub =>
    rw [Section.MustRegisterSection_present s key cfg sub hl] at h
    cases h
  | none =>
    rw [Section.MustRegisterSection_absent s key cfg hl] at h
    injection h with h
    injection h with h1 h2
    exact ⟨rfl, h1.symm, h2.symm⟩

/-- Claim C5: when the registry does not yet hold the key `"propeller"`,
registering `defaultConfig` under it succeeds, the registry then holds the
returned handle under that key, and `GetConfig` on the handle, with no override
applied, returns a pointer to a value equal to `defaultConfig`. -/
theorem GetConfig_after_registration (rootSection : Section)
    (h : rootSection.lookup configSectionKey = none) :
    configSectionKey = "propeller" ∧
    ∃ handle registry,
      configSection rootSection = .ok (handle, registry) ∧
      registry.lookup configSectionKey = some handle ∧
      GetConfig handle = .ok (some defaultConfig) := by
  refine ⟨rfl, .mk (.config (some defaultConfig)) [], _,
    Section.MustRegisterSection_absent rootSection configSectionKey _ h, ?_, rfl⟩
  cases rootSection with
  | mk c subs =>
    have h0 : subs.lookup configSectionKey = none := h
    rw [Section.sections, Section.lookup_extended, h0]
    simp

/-- Witness of claim C5 on the empty registry. -/
theorem GetConfig_after_registration_witness :
    (Section.mk .nil []).lookup configSectionKey = none ∧
    (configSectionKey = "propeller" ∧
     ∃ handle registry,
      configSection (.mk .nil []) = .ok (handle, registry) ∧
      registry.lookup configSectionKey = some handle ∧
      GetConfig handle = .ok (some defaultConfig)) :=
  ⟨rfl, GetConfig_after_registration (.mk .nil []) rfl⟩

/-- Claim C6: `GetConfig` succeeds exactly when the value held by the root
section has dynamic type `*Config`. It then returns that same pointer; for the
nil interface and for a value of any other dynamic type it panics on the type
assertion, and it never returns in any other way. -/
theorem GetConfig_succeeds_iff_Config_shape :
    (∀ (p : Option Config) (subs : List (String × Section)),
      GetConfig (.mk (.config p) subs) = .ok p) ∧
    (∀ subs : List (String × Section),
      GetConfig (.mk .nil subs) = .error .typeAssertion) ∧
    (∀ (id : Nat) (subs : List (String × Section)),
      GetConfig (.mk (.other id) subs) = .error .typeAssertion) ∧
    (∀ s : Section, (∃ p, GetConfig s = .ok p) ↔ ∃ p, s.GetConfig = .config p) ∧
    (∀ s : Section,
      GetConfig s = .error .typeAssertion ↔ ¬ ∃ p, s.GetConfig = .config p) ∧
    (∀ (s : Section) (p : Option Config), GetConfig s = .ok p ↔ s.GetConfig = .config p) := by
  refine ⟨fun _ _ => rfl, fun _ => rfl, fun _ _ => rfl, fun s => ?_, fun s => ?_, fun s p => ?_⟩
  · cases s with
    | mk c subs => cases c <;> simp [GetConfig, Section.GetConfig]
  · cases s with
    | mk c subs => cases c <;> simp [GetConfig, Section.GetConfig]
  · cases s with
    | mk c subs =>
      cases c <;> simp [GetConfig, Section.GetConfig, eq_comm]

/-- Claim C7: under the root section, (1) whenever a first registration of a
key `k` succeeds, a second registration of `k` is the duplicate-section fault,
and the section of the first registration is still the one held under `k`,
with its value; (2) for two distinct keys that the root section does not yet
hold, registering one and then the other succeeds, each returned handle holds
the value registered under its own key, and the root section holds each handle
under its own key. -/
theorem MustRegisterSubSection_duplicate_and_distinct (root : Section)
    (k : String) (v v2 : Any) (k1 k2 : String) (w1 w2 : Any)
    (hne : k1 ≠ k2) (hk1 : root.lookup k1 = none) (hk2 : root.lookup k2 = none) :
    (∀ handle root1,
      MustRegisterSubSection root k v = .ok (handle, root1) →
        MustRegisterSubSection root1 k v2 = .error (.duplicateSection k) ∧
        root1.lookup k = some handle ∧ handle.GetConfig = v) ∧
    (∃ h1 root1 h2 root2,
      MustRegisterSubSection root k1 w1 = .ok (h1, root1) ∧
      MustRegisterSubSection root1 k2 w2 = .ok (h2, root2) ∧
      h1.GetConfig = w1 ∧ h2.GetConfig = w2 ∧
      root2.lookup k1 = some h1 ∧ root2.lookup k2 = some h2) := by
  cases root with
  | mk c subs =>
    have hs1 : subs.lookup k1 = none := hk1
    have hs2 : subs.lookup k2 = none := hk2
    constructor
    · intro handle root1 hreg
      obtain ⟨habs, rfl, rfl⟩ := Section.MustRegisterSection_ok _ k v handle root1 hreg
      have hs : subs.lookup k = none := habs
      have hl : (Section.mk (Section.mk c subs).GetConfig
          ((Section.mk c subs).sections ++ [(k, Section.mk v [])])).lookup k
          = some (Section.mk v []) := by
        rw [Section.sections, Section.lookup_extended, hs]
        simp
      exact ⟨Section.MustRegisterSection_present _ k v2 _ hl, hl, rfl⟩
    · have hl1 : (Section.mk c (subs ++ [(k1, Section.mk w1 [])])).lookup k2 = none := by
        rw [Section.lookup_extended, hs2]
        simp [Ne.symm hne]
      refine ⟨.mk w1 [], _, .mk w2 [], _,
        Section.MustRegisterSection_absent (.mk c subs) k1 w1 hk1,
        Section.MustRegisterSection_absent _ k2 w2 hl1, rfl, rfl, ?_, ?_⟩
      · simp only [Section.sections, Section.GetConfig]
        rw [Section.lookup_extended, List.lookup_append, hs1]
        simp [List.lookup_cons, hne]
      · simp only [Section.sections, Section.GetConfig]
        have hl2 : (subs ++ [(k1, Section.mk w1 [])]).lookup k2 = none := hl1
        rw [Section.lookup_extended, hl2]
        simp

/-- Witness of claim C7: under a root section holding `defaultConfig` and no
nested section, the keys `"storage"` and `"catalog"` register side by side, and
a second registration of `"storage"` is the duplicate-section fault. -/
theorem MustRegisterSubSection_duplicate_and_distinct_witness :
    "storage" ≠ "catalog" ∧
    (Section.mk (.config (some defaultConfig)) []).lookup "storage" = none ∧
    (Section.mk (.config (some defaultConfig)) []).lookup "catalog" = none ∧
    MustRegisterSubSection (.mk (.config (some defaultConfig)) []) "storage" (.other 1) =
      .ok (.mk (.other 1) [],
        .mk (.config (some defaultConfig)) [("storage", .mk (.other 1) [])]) ∧
    ((∀ handle root1,
      MustRegisterSubSection (.mk (.config (some defaultConfig)) []) "storage" (.other 1) =
          .ok (handle, root1) →
        MustRegisterSubSection root1 "storage" (.other 2) =
          .error (.duplicateSection "storage") ∧
        root1.lookup "storage" = some handle ∧ handle.GetConfig = .other 1) ∧
    (∃ h1 root1 h2 root2,
      MustRegisterSubSection (.mk (.config (some defaultConfig)) []) "storage" (.other 1) =
        .ok (h1, root1) ∧
      MustRegisterSubSection root1 "catalog" (.other 3) = .ok (h2, root2) ∧
      h1.GetConfig = .other 1 ∧ h2.GetConfig = .other 3 ∧
      root2.lookup "storage" = some h1 ∧ root2.lookup "catalog" = some h2)) :=
  ⟨by decide, rfl, rfl, rfl,
    MustRegisterSubSection_duplicate_and_distinct (.mk (.config (some defaultConfig)) [])
      "storage" (.other 1) (.other 2) "storage" "catalog" (.other 1) (.other 3)
      (by decide) rfl rfl⟩

end FlytePropeller
